import Mathlib

/-!
Verification of the legal-office management system (`src/app.py`) against its
specification.  The MySQL tables read and written by the Streamlit views are
modelled as Lean lists of structures; each SQL query string appearing in
`app.py` is embedded as a Lean function over those lists.  Stored procedures
(`sp_casos_por_cliente`, `sp_subir_documento`, `sp_agendar_cita`,
`sp_asignar_caso`) are not part of the repository; where a claim depends on
one, the definition is modelled from the spec and marked as such.
-/

namespace Bufete

/-- A row of the `usuarios` table. -/
structure Usuario where
  id : Nat
  nombre : String
  correo : String
  rol : String
  estado : String
deriving DecidableEq, Repr

/-- A row of the `abogados` table (lawyer profile, 1:1 with a `usuarios` row). -/
structure Abogado where
  id_abogado : Nat
  id_usuario : Nat
deriving DecidableEq, Repr

/-- A row of the `clientes` table (client profile, 1:1 with a `usuarios` row). -/
structure Cliente where
  id_cliente : Nat
  id_usuario : Nat
deriving DecidableEq, Repr

/-- A row of the `casos` table. -/
structure Caso where
  id_caso : Nat
  titulo : String
  tipo : String
  descripcion : String
  estado : String
  id_cliente : Nat
  id_abogado : Nat
  fecha_inicio : Nat
  presupuesto : Option Int
deriving DecidableEq, Repr

/-- A row of the `citas` table (appointments). -/
structure Cita where
  id_cita : Nat
  id_abogado : Nat
  id_cliente : Nat
  id_caso : Option Nat
  fecha_cita : Nat
  hora_cita : Nat
  motivo : String
  notas : Option String
  estado : String
deriving DecidableEq, Repr

/-- A row of the `mensajes` table. -/
structure Mensaje where
  id_mensaje : Nat
  id_remitente : Nat
  id_destinatario : Nat
  id_caso : Option Nat
  asunto : String
  mensaje : String
  leido : Bool
  fecha_envio : Nat
deriving DecidableEq, Repr

/-- A row of the `documentos` table. -/
structure Documento where
  id_doc : Nat
  id_caso : Nat
  nombre_archivo : String
  ruta_archivo : String
  tipo_documento : String
  tamanio_kb : Nat
  subido_por : Nat
  version : Nat
  fecha_subida : Nat
deriving DecidableEq, Repr

/- ===================== C1 : client case visibility ===================== -/

/-- `app.py` 711-715, the case list of the client document view:
`SELECT c.id_caso, c.titulo FROM casos c WHERE c.id_cliente = %s`
with the parameter bound to the actor's client-profile id. -/
def casos_cliente_documentos (casos : List Caso) (cliente_id : Nat) : List Caso :=
  casos.filter (fun c => c.id_cliente == cliente_id)

/-- Modelled from the spec: the stored procedure `sp_casos_por_cliente`
(called at `app.py` 395 to build the client dashboard case list) is not in the
repository; per the spec, the client-facing case list contains exactly the
cases whose client reference equals the actor's client-profile id. -/
def sp_casos_por_cliente (casos : List Caso) (cliente_id : Nat) : List Caso :=
  casos.filter (fun c => c.id_cliente == cliente_id)

/- ================ C9 : query / stored-procedure errors ================= -/

/-- Outcome of the underlying MySQL cursor call made by `execute_query` or
`execute_stored_procedure`: the cached connection may be unavailable, the
execution may raise, or it succeeds with a payload (rows, or a row count). -/
inductive DBOutcome (ρ : Type) where
  | sinConexion : DBOutcome ρ
  | excepcion : DBOutcome ρ
  | exito : ρ → DBOutcome ρ
deriving DecidableEq, Repr

/-- A generic result row, as the `dictionary=True` cursor returns it. -/
def Fila : Type := List (String × String)

instance : DecidableEq Fila := inferInstanceAs (DecidableEq (List (String × String)))

/-- `app.py` 100-117, `execute_query` on a SELECT statement.  First component:
the Python return value (`none` models Python `None`, reached when the
connection is falsy and the function falls through; on an exception the
`except` branch returns `[]`).  Second component: whether an error banner was
emitted to the UI (`st.error`) — a side effect, not part of the return value. -/
def execute_query_select (o : DBOutcome (List Fila)) : Option (List Fila) × Bool :=
  match o with
  | .sinConexion => (none, true)
  | .excepcion => (some [], true)
  | .exito rows => (some rows, false)

/-- `app.py` 100-117, `execute_query` on a non-SELECT statement: the success
payload is `cursor.rowcount`; the `except` branch returns `0`. -/
def execute_query_update (o : DBOutcome Nat) : Option Nat × Bool :=
  match o with
  | .sinConexion => (none, true)
  | .excepcion => (some 0, true)
  | .exito n => (some n, false)

/-- `app.py` 78-97, `execute_stored_procedure`: the `except` branch returns
`[]`; a falsy connection falls through to an implicit `None`. -/
def execute_stored_procedure_model (o : DBOutcome (List Fila)) :
    Option (List Fila) × Bool :=
  match o with
  | .sinConexion => (none, true)
  | .excepcion => (some [], true)
  | .exito rows => (some rows, false)

/- ================= C10 : client upload path unreachable ================ -/

/-- An invocation of `sp_subir_documento` as prepared by the upload form
(`app.py` 775-784): target case, file name, path, document type, size, and
uploader. -/
structure SubidaDoc where
  id_caso : Nat
  nombre_archivo : String
  ruta_archivo : String
  tipo_documento : String
  tamanio_kb : Nat
  subido_por : Nat
deriving DecidableEq, Repr

/-- Versions already stored for a `(case, filename)` pair, in table order. -/
def versionesDe (docs : List Documento) (caso : Nat) (archivo : String) : List Nat :=
  (docs.filter (fun d => d.id_caso == caso && d.nombre_archivo == archivo)).map
    (fun d => d.version)

/-- Greatest stored version for a `(case, filename)` pair, `0` if none. -/
def maxVersion (docs : List Documento) (caso : Nat) (archivo : String) : Nat :=
  (versionesDe docs caso archivo).foldr max 0

/-- Modelled from the spec: the stored procedure `sp_subir_documento` (called
at `app.py` 781) is not in the repository; per the spec it computes
`version = (max existing version for (caseId, filename)) + 1`, defaulting to
`1` when none exist, and writes a new `Documento` row, never mutating prior
versions.  `nuevo_id` and `fecha` stand for the generated key and timestamp. -/
def sp_subir_documento (docs : List Documento) (ev : SubidaDoc)
    (nuevo_id fecha : Nat) : List Documento :=
  docs ++ [{ id_doc := nuevo_id, id_caso := ev.id_caso,
             nombre_archivo := ev.nombre_archivo, ruta_archivo := ev.ruta_archivo,
             tipo_documento := ev.tipo_documento, tamanio_kb := ev.tamanio_kb,
             subido_por := ev.subido_por,
             version := maxVersion docs ev.id_caso ev.nombre_archivo + 1,
             fecha_subida := fecha }]

/- ================ C4 : eligible message recipients ==================== -/

/-- `app.py` 641-648, recipients offered to a sender of role `cliente`:
`SELECT DISTINCT u.id, u.nombre FROM usuarios u JOIN abogados a ON u.id =
a.id_usuario JOIN casos c ON a.id_abogado = c.id_abogado JOIN clientes cl ON
c.id_cliente = cl.id_cliente WHERE cl.id_usuario = %s`. -/
def destinatarios_cliente (usuarios : List Usuario) (abogados : List Abogado)
    (casos : List Caso) (clientes : List Cliente) (user_id : Nat) :
    List (Nat × String) :=
  (usuarios.flatMap (fun u =>
    abogados.flatMap (fun a =>
      casos.flatMap (fun c =>
        (clientes.filter (fun cl =>
          u.id == a.id_usuario && a.id_abogado == c.id_abogado &&
          c.id_cliente == cl.id_cliente && cl.id_usuario == user_id)).map
          (fun _ => (u.id, u.nombre)))))).dedup

/-- `app.py` 651-655, recipients offered to a sender of any other role:
`SELECT id, nombre, rol FROM usuarios WHERE estado = 'activo' AND id != %s`. -/
def destinatarios_no_cliente (usuarios : List Usuario) (user_id : Nat) :
    List Usuario :=
  usuarios.filter (fun u => u.estado == "activo" && u.id != user_id)

/-- `app.py` 637-655, the role dispatch on `st.session_state.user['rol']`. -/
def destinatarios_disponibles (usuarios : List Usuario) (abogados : List Abogado)
    (casos : List Caso) (clientes : List Cliente) (user : Usuario) :
    List (Nat × String) :=
  if user.rol == "cliente" then
    destinatarios_cliente usuarios abogados casos clientes user.id
  else
    (destinatarios_no_cliente usuarios user.id).map (fun u => (u.id, u.nombre))

/- ===================== C5 : case assignment =========================== -/

/-- `app.py` 466-471, clients selectable in the new-case form:
`SELECT c.id_cliente, u.nombre FROM clientes c JOIN usuarios u ON
c.id_usuario = u.id WHERE u.estado = 'activo'`. -/
def clientes_activos (clientes : List Cliente) (usuarios : List Usuario) : List Nat :=
  (clientes.filter (fun cl =>
    usuarios.any (fun u => cl.id_usuario == u.id && u.estado == "activo"))).map
    (fun cl => cl.id_cliente)

/-- `app.py` 483-488, lawyers selectable in the new-case form. -/
def abogados_activos (abogados : List Abogado) (usuarios : List Usuario) : List Nat :=
  (abogados.filter (fun a =>
    usuarios.any (fun u => a.id_usuario == u.id && u.estado == "activo"))).map
    (fun a => a.id_abogado)

/-- The assignment errors of the spec. -/
inductive ErrorAsignacion where
  | InvalidArgument : ErrorAsignacion
  | PerfilInactivo : ErrorAsignacion
deriving DecidableEq, Repr

/-- The client profile `cliente_id` belongs to an active user. -/
def clienteActivo (clientes : List Cliente) (usuarios : List Usuario)
    (cliente_id : Nat) : Bool :=
  clientes.any (fun cl => cl.id_cliente == cliente_id &&
    usuarios.any (fun u => u.id == cl.id_usuario && u.estado == "activo"))

/-- The lawyer profile `abogado_id` belongs to an active user. -/
def abogadoActivo (abogados : List Abogado) (usuarios : List Usuario)
    (abogado_id : Nat) : Bool :=
  abogados.any (fun a => a.id_abogado == abogado_id &&
    usuarios.any (fun u => u.id == a.id_usuario && u.estado == "activo"))

/-- Modelled from the spec: the stored procedure `sp_asignar_caso` (called at
`app.py` 503) is not in the repository; per the spec it requires both
referenced profiles to belong to active users, rejects a negative budget with
`InvalidArgument`, and on success creates the case in the `pendiente` state. -/
def sp_asignar_caso (casos : List Caso) (usuarios : List Usuario)
    (clientes : List Cliente) (abogados : List Abogado)
    (nuevo_id cliente_id abogado_id : Nat) (titulo tipo descripcion : String)
    (fecha : Nat) (presupuesto : Option Int) :
    List Caso × Option ErrorAsignacion :=
  if presupuesto.any (fun p => decide (p < 0)) then
    (casos, some .InvalidArgument)
  else if clienteActivo clientes usuarios cliente_id &&
            abogadoActivo abogados usuarios abogado_id then
    (casos ++ [{ id_caso := nuevo_id, titulo := titulo, tipo := tipo,
                 descripcion := descripcion, estado := "pendiente",
                 id_cliente := cliente_id, id_abogado := abogado_id,
                 fecha_inicio := fecha, presupuesto := presupuesto }], none)
  else
    (casos, some .PerfilInactivo)

/- Concrete example tables: client user 1 (profile 10) with two cases, case
100 with lawyer profile 20 (user 2) and case 101 with lawyer profile 21
(user 3). -/

/-- Example client user. -/
def usuarioC : Usuario :=
  { id := 1, nombre := "C", correo := "c@x", rol := "cliente", estado := "activo" }

/-- Example `usuarios` table. -/
def usuariosEj : List Usuario :=
  [usuarioC,
   { id := 2, nombre := "L1", correo := "l1@x", rol := "abogado", estado := "activo" },
   { id := 3, nombre := "L2", correo := "l2@x", rol := "abogado", estado := "activo" }]

/-- Example `abogados` table. -/
def abogadosEj : List Abogado :=
  [{ id_abogado := 20, id_usuario := 2 }, { id_abogado := 21, id_usuario := 3 }]

/-- Example `clientes` table. -/
def clientesEj : List Cliente :=
  [{ id_cliente := 10, id_usuario := 1 }]

/-- Example `casos` table. -/
def casosEj : List Caso :=
  [{ id_caso := 100, titulo := "t1", tipo := "Derecho Civil", descripcion := "d",
     estado := "pendiente", id_cliente := 10, id_abogado := 20,
     fecha_inicio := 1, presupuesto := none },
   { id_caso := 101, titulo := "t2", tipo := "Derecho Penal", descripcion := "d",
     estado := "pendiente", id_cliente := 10, id_abogado := 21,
     fecha_inicio := 1, presupuesto := none }]

/- ============ C6 : case reference attached to a message =============== -/

/-- `app.py` 662-670, cases offered in the send-message form: `SELECT
c.id_caso, c.titulo FROM casos c WHERE c.id_abogado IN (SELECT a.id_abogado
FROM abogados a WHERE a.id_usuario = %s) OR c.id_cliente IN (SELECT
cl.id_cliente FROM clientes cl WHERE cl.id_usuario = %s)` — both parameters
bound to the sender. -/
def casos_del_remitente (casos : List Caso) (abogados : List Abogado)
    (clientes : List Cliente) (user_id : Nat) : List Caso :=
  casos.filter (fun c =>
    abogados.any (fun a => a.id_usuario == user_id && c.id_abogado == a.id_abogado) ||
    clientes.any (fun cl => cl.id_usuario == user_id && c.id_cliente == cl.id_cliente))

/-- `app.py` 686-689, `INSERT INTO mensajes (id_remitente, id_destinatario,
id_caso, asunto, mensaje) VALUES (...)`: the insert is unconditional, with the
read flag initially unset. -/
def enviar_mensaje (mensajes : List Mensaje) (nuevo_id remitente destinatario : Nat)
    (caso : Option Nat) (asunto cuerpo : String) (fecha : Nat) : List Mensaje :=
  mensajes ++ [{ id_mensaje := nuevo_id, id_remitente := remitente,
                 id_destinatario := destinatario, id_caso := caso,
                 asunto := asunto, mensaje := cuerpo, leido := false,
                 fecha_envio := fecha }]

/-- The case `c` links the user `uid`: `uid` owns the lawyer profile or the
client profile referenced by the case. -/
def casoVinculaUsuario (abogados : List Abogado) (clientes : List Cliente)
    (c : Caso) (uid : Nat) : Bool :=
  abogados.any (fun a => a.id_abogado == c.id_abogado && a.id_usuario == uid) ||
  clientes.any (fun cl => cl.id_cliente == c.id_cliente && cl.id_usuario == uid)

/- ==================== C7 / C8 : inbox and read flag =================== -/

/-- Message `a` was sent no earlier than message `b` — the descending
`ORDER BY m.fecha_envio DESC` order of the inbox query. -/
def msgDespues (a b : Mensaje) : Prop :=
  b.fecha_envio ≤ a.fecha_envio

instance : DecidableRel msgDespues :=
  fun a b => inferInstanceAs (Decidable (b.fecha_envio ≤ a.fecha_envio))

instance : IsTotal Mensaje msgDespues :=
  ⟨fun a b => le_total b.fecha_envio a.fecha_envio⟩

instance : IsTrans Mensaje msgDespues :=
  ⟨fun _ _ _ hab hbc => le_trans hbc hab⟩

/-- `app.py` 608-615, the inbox query: `SELECT m.*, u.nombre as remitente, …
FROM mensajes m JOIN usuarios u ON m.id_remitente = u.id LEFT JOIN casos …
WHERE m.id_destinatario = %s ORDER BY m.fecha_envio DESC` (the inner join on
the sender keeps a message iff its sender exists in `usuarios`). -/
def bandeja_entrada (usuarios : List Usuario) (mensajes : List Mensaje)
    (user_id : Nat) : List Mensaje :=
  List.insertionSort msgDespues
    (mensajes.filter (fun m => m.id_destinatario == user_id &&
      usuarios.any (fun u => m.id_remitente == u.id)))

/-- `app.py` 628, the only UPDATE of `mensajes` in the program:
`UPDATE mensajes SET leido = TRUE WHERE id_mensaje = %s`.  It is reachable
only from the mark-as-read button rendered next to a message of the actor's
own inbox (`app.py` 626-629). -/
def marcar_leido (mensajes : List Mensaje) (mid : Nat) : List Mensaje :=
  mensajes.map (fun m => if m.id_mensaje == mid then { m with leido := true } else m)

/-- Projection of a message row on every column except the read flag. -/
def sinLeido (m : Mensaje) :
    Nat × Nat × Nat × Option Nat × String × String × Nat :=
  (m.id_mensaje, m.id_remitente, m.id_destinatario, m.id_caso, m.asunto,
   m.mensaje, m.fecha_envio)

/-- Example message received by user 1 from user 2. -/
def mensajeEj1 : Mensaje :=
  { id_mensaje := 1, id_remitente := 2, id_destinatario := 1, id_caso := none,
    asunto := "hola", mensaje := "cuerpo", leido := false, fecha_envio := 5 }

/-- Example `mensajes` table. -/
def mensajesEj : List Mensaje :=
  [mensajeEj1,
   { id_mensaje := 2, id_remitente := 3, id_destinatario := 1, id_caso := none,
     asunto := "x", mensaje := "y", leido := false, fecha_envio := 9 },
   { id_mensaje := 3, id_remitente := 2, id_destinatario := 2, id_caso := none,
     asunto := "z", mensaje := "w", leido := true, fecha_envio := 7 }]

/- ================== C3 : appointment slot conflicts =================== -/

/-- The scheduling error of the spec. -/
inductive ErrorCita where
  | SlotUnavailable : ErrorCita
deriving DecidableEq, Repr

/-- A non-cancelled appointment of the same lawyer occupies the identical
`(date, time)` slot. -/
def conflicto (citas : List Cita) (abogado fecha hora : Nat) : Bool :=
  citas.any (fun c => c.id_abogado == abogado && c.fecha_cita == fecha &&
    c.hora_cita == hora && c.estado != "cancelled")

/-- Modelled from the spec: the stored procedure `sp_agendar_cita` (called at
`app.py` 592) is not in the repository; per the spec it signals
`SlotUnavailable` and writes nothing when an existing non-cancelled
appointment of the same lawyer occupies the identical `(date, time)` slot, and
otherwise inserts exactly one appointment in the `scheduled` state. -/
def sp_agendar_cita (citas : List Cita) (nuevo_id abogado cliente : Nat)
    (caso : Option Nat) (fecha hora : Nat) (motivo : String) :
    List Cita × Option ErrorCita :=
  if conflicto citas abogado fecha hora then
    (citas, some .SlotUnavailable)
  else
    (citas ++ [{ id_cita := nuevo_id, id_abogado := abogado, id_cliente := cliente,
                 id_caso := caso, fecha_cita := fecha, hora_cita := hora,
                 motivo := motivo, notas := none, estado := "scheduled" }], none)

/-- A sequence of uploads applied in order; each entry carries the upload form
data together with the generated row id and timestamp. -/
def aplicarSubidas (docs : List Documento) : List (SubidaDoc × Nat × Nat) → List Documento
  | [] => docs
  | (ev, i, f) :: evs => aplicarSubidas (sp_subir_documento docs ev i f) evs

/-- `app.py` 760, the gate on the upload form of `show_document_management`:
`if not cliente_view or user_role != 'cliente':`. -/
def formulario_subida_visible (cliente_view : Bool) (user_role : String) : Bool :=
  !cliente_view || !(user_role == "cliente")

/-- The documents table after one rendering of `show_document_management`:
an upload event can reach `sp_subir_documento` only when the upload form was
rendered (`app.py` 759-789). -/
def vista_documentos_subida (cliente_view : Bool) (user_role : String)
    (docs : List Documento) (ev : Option (SubidaDoc × Nat × Nat)) : List Documento :=
  match ev with
  | none => docs
  | some (e, i, f) =>
      if formulario_subida_visible cliente_view user_role then
        sp_subir_documento docs e i f
      else
        docs

end Bufete

namespace Bufete

/-- Claim C1: a user with role client is granted READ access to a case iff the
case's `id_cliente` equals the actor's client-profile id — both the client
dashboard case list and the client document view's case list contain exactly
the actor's own cases and no case of any other client. -/
theorem c1_casos_cliente_exactos (casos : List Caso) (cliente_id : Nat) (c : Caso) :
    (c ∈ sp_casos_por_cliente casos cliente_id ↔
      c ∈ casos ∧ c.id_cliente = cliente_id) ∧
    (c ∈ casos_cliente_documentos casos cliente_id ↔
      c ∈ casos ∧ c.id_cliente = cliente_id) := by
  constructor <;>
    simp [sp_casos_por_cliente, casos_cliente_documentos, List.mem_filter]

theorem foldr_max_le (l : List Nat) (n : Nat) (h : ∀ x ∈ l, x ≤ n) :
    l.foldr max 0 ≤ n := by
  induction l with
  | nil => exact Nat.zero_le n
  | cons a l ih =>
      simp only [List.foldr_cons]
      exact max_le (h a (List.mem_cons_self a l))
        (ih (fun x hx => h x (List.mem_cons_of_mem a hx)))

theorem le_foldr_max (l : List Nat) (x : Nat) (h : x ∈ l) : x ≤ l.foldr max 0 := by
  induction l with
  | nil => cases h
  | cons a l ih =>
      simp only [List.foldr_cons]
      rcases List.mem_cons.mp h with rfl | hx
      · exact le_max_left _ _
      · exact le_trans (ih hx) (le_max_right _ _)

theorem foldr_max_range' (n : Nat) : (List.range' 1 n).foldr max 0 = n := by
  apply le_antisymm
  · apply foldr_max_le
    intro x hx
    rcases List.mem_range'.mp hx with ⟨i, hi, rfl⟩
    omega
  · cases n with
    | zero => exact Nat.zero_le _
    | succ m =>
        apply le_foldr_max
        exact List.mem_range'.mpr ⟨m, Nat.lt_succ_self m, by omega⟩

theorem versionesDe_append (docs : List Documento) (d : Documento)
    (caso : Nat) (archivo : String) :
    versionesDe (docs ++ [d]) caso archivo =
      versionesDe docs caso archivo ++
        (if d.id_caso = caso ∧ d.nombre_archivo = archivo then [d.version] else []) := by
  simp only [versionesDe, List.filter_append, List.map_append]
  congr 1
  by_cases h1 : d.id_caso = caso <;> by_cases h2 : d.nombre_archivo = archivo <;>
    simp [h1, h2]

theorem versionesDe_subida_otra (docs : List Documento) (ev : SubidaDoc)
    (i f caso : Nat) (archivo : String)
    (h : ¬(ev.id_caso = caso ∧ ev.nombre_archivo = archivo)) :
    versionesDe (sp_subir_documento docs ev i f) caso archivo =
      versionesDe docs caso archivo := by
  rw [sp_subir_documento, versionesDe_append]
  simp only [h, if_false]
  simp

theorem versionesDe_subida_misma (docs : List Documento) (ev : SubidaDoc)
    (i f : Nat) :
    versionesDe (sp_subir_documento docs ev i f) ev.id_caso ev.nombre_archivo =
      versionesDe docs ev.id_caso ev.nombre_archivo ++
        [maxVersion docs ev.id_caso ev.nombre_archivo + 1] := by
  rw [sp_subir_documento, versionesDe_append]
  simp

/-- The per-pair gap-free version invariant. -/
def VersionesSinHuecos (docs : List Documento) : Prop :=
  ∀ caso archivo, versionesDe docs caso archivo =
    List.range' 1 (versionesDe docs caso archivo).length

theorem versionesSinHuecos_paso (docs : List Documento) (ev : SubidaDoc)
    (i f : Nat) (h : VersionesSinHuecos docs) :
    VersionesSinHuecos (sp_subir_documento docs ev i f) := by
  intro caso archivo
  by_cases hc : ev.id_caso = caso ∧ ev.nombre_archivo = archivo
  · obtain ⟨hc1, hc2⟩ := hc
    subst hc1; subst hc2
    rw [versionesDe_subida_misma]
    have hlen := h ev.id_caso ev.nombre_archivo
    set L := (versionesDe docs ev.id_caso ev.nombre_archivo).length with hL
    have hmax : maxVersion docs ev.id_caso ev.nombre_archivo = L := by
      rw [maxVersion, hlen, foldr_max_range']
    rw [hmax, hlen]
    have : (List.range' 1 L ++ [L + 1]).length = L + 1 := by simp
    rw [this, List.range'_concat]
    simp [Nat.add_comm]
  · rw [versionesDe_subida_otra docs ev i f caso archivo hc]
    exact h caso archivo

theorem versionesSinHuecos_aplicar (evs : List (SubidaDoc × Nat × Nat))
    (docs : List Documento) (h : VersionesSinHuecos docs) :
    VersionesSinHuecos (aplicarSubidas docs evs) := by
  induction evs generalizing docs with
  | nil => exact h
  | cons e evs ih =>
      obtain ⟨ev, i, f⟩ := e
      exact ih (sp_subir_documento docs ev i f) (versionesSinHuecos_paso docs ev i f h)

/-- Claim C2: every upload assigns `version = max existing version for the
(case, filename) pair + 1`, so after any sequence of uploads starting from an
empty table the versions of every pair form the gap-free sequence 1, 2, 3, …;
an upload appends one row and never mutates a previously stored row; the first
upload of a pair gets version 1. -/
theorem c2_versiones_sin_huecos :
    (∀ (evs : List (SubidaDoc × Nat × Nat)) (caso : Nat) (archivo : String),
        versionesDe (aplicarSubidas [] evs) caso archivo =
          List.range' 1 (versionesDe (aplicarSubidas [] evs) caso archivo).length) ∧
    (∀ (docs : List Documento) (ev : SubidaDoc) (i f : Nat),
        (sp_subir_documento docs ev i f).take docs.length = docs) ∧
    (∀ (docs : List Documento) (ev : SubidaDoc) (i f : Nat),
        versionesDe docs ev.id_caso ev.nombre_archivo = [] →
        versionesDe (sp_subir_documento docs ev i f) ev.id_caso ev.nombre_archivo
          = [1]) := by
  refine ⟨?_, ?_, ?_⟩
  · intro evs caso archivo
    exact versionesSinHuecos_aplicar evs []
      (fun _ _ => by simp [versionesDe]) caso archivo
  · intro docs ev i f
    rw [sp_subir_documento]
    exact List.take_left docs _
  · intro docs ev i f hvacio
    rw [versionesDe_subida_misma, hvacio, maxVersion, hvacio]
    rfl

/-- Claim C2 witness: on the empty table, uploading `contrato.pdf` to case 7
assigns version 1. -/
theorem c2_versiones_sin_huecos_witness :
    versionesDe ([] : List Documento) 7 "contrato.pdf" = [] ∧
    versionesDe
        (sp_subir_documento []
          { id_caso := 7, nombre_archivo := "contrato.pdf",
            ruta_archivo := "uploads/7/contrato.pdf", tipo_documento := "Contrato",
            tamanio_kb := 10, subido_por := 2 } 1 100) 7 "contrato.pdf" = [1] := by
  exact ⟨rfl, c2_versiones_sin_huecos.2.2 []
    { id_caso := 7, nombre_archivo := "contrato.pdf",
      ruta_archivo := "uploads/7/contrato.pdf", tipo_documento := "Contrato",
      tamanio_kb := 10, subido_por := 2 } 1 100 rfl⟩

theorem destinatarios_cliente_mem (usuarios : List Usuario)
    (abogados : List Abogado) (casos : List Caso) (clientes : List Cliente)
    (user_id : Nat) (p : Nat × String) :
    p ∈ destinatarios_cliente usuarios abogados casos clientes user_id ↔
      ∃ u ∈ usuarios, ∃ a ∈ abogados, ∃ c ∈ casos, ∃ cl ∈ clientes,
        (u.id = a.id_usuario ∧ a.id_abogado = c.id_abogado ∧
         c.id_cliente = cl.id_cliente ∧ cl.id_usuario = user_id) ∧
        (u.id, u.nombre) = p := by
  simp only [destinatarios_cliente, List.mem_dedup, List.mem_flatMap,
    List.mem_map, List.mem_filter, Bool.and_eq_true, beq_iff_eq, and_assoc]

/-- Claim C4: for a sender of role client the eligible recipients are exactly
the distinct lawyers assigned to at least one of that client's cases (so never
a lawyer with no shared case); for any other role (lawyer, administrator) they
are exactly the active users other than the sender. -/
theorem c4_destinatarios (usuarios : List Usuario) (abogados : List Abogado)
    (casos : List Caso) (clientes : List Cliente) (user : Usuario)
    (p : Nat × String) :
    (user.rol = "cliente" →
      (p ∈ destinatarios_disponibles usuarios abogados casos clientes user ↔
        ∃ u ∈ usuarios, ∃ a ∈ abogados, ∃ c ∈ casos, ∃ cl ∈ clientes,
          (u.id = a.id_usuario ∧ a.id_abogado = c.id_abogado ∧
           c.id_cliente = cl.id_cliente ∧ cl.id_usuario = user.id) ∧
          (u.id, u.nombre) = p)) ∧
    (user.rol ≠ "cliente" →
      (p ∈ destinatarios_disponibles usuarios abogados casos clientes user ↔
        ∃ u ∈ usuarios, (u.estado = "activo" ∧ u.id ≠ user.id) ∧
          (u.id, u.nombre) = p)) ∧
    (destinatarios_cliente usuarios abogados casos clientes user.id).Nodup := by
  refine ⟨?_, ?_, List.nodup_dedup _⟩
  · intro hrol
    rw [destinatarios_disponibles, if_pos (by simp [hrol])]
    exact destinatarios_cliente_mem usuarios abogados casos clientes user.id p
  · intro hrol
    rw [destinatarios_disponibles, if_neg (by simp [hrol])]
    simp only [destinatarios_no_cliente, List.mem_map, List.mem_filter,
      Bool.and_eq_true, beq_iff_eq, bne_iff_ne, and_assoc]

/-- Claim C4 witness: in the example tables, the client sender (user 1) is
offered recipient (2, "L1"), characterised exactly by the shared-case
condition. -/
theorem c4_destinatarios_witness :
    usuarioC.rol = "cliente" ∧
    ((2, "L1") ∈ destinatarios_disponibles usuariosEj abogadosEj casosEj
        clientesEj usuarioC ↔
      ∃ u ∈ usuariosEj, ∃ a ∈ abogadosEj, ∃ c ∈ casosEj, ∃ cl ∈ clientesEj,
        (u.id = a.id_usuario ∧ a.id_abogado = c.id_abogado ∧
         c.id_cliente = cl.id_cliente ∧ cl.id_usuario = usuarioC.id) ∧
        (u.id, u.nombre) = (2, "L1")) :=
  ⟨rfl, (c4_destinatarios usuariosEj abogadosEj casosEj clientesEj usuarioC
    (2, "L1")).1 rfl⟩

/-- Claim C5: assignment succeeds only when both referenced profiles belong to
active users and the budget, when provided, is non-negative; the new case is
created in state `pendiente`; a negative budget signals `InvalidArgument` and
writes nothing; the selectable client list of the form contains exactly the
client profiles of active users. -/
theorem c5_asignar_caso (casos : List Caso) (usuarios : List Usuario)
    (clientes : List Cliente) (abogados : List Abogado)
    (nuevo_id cliente_id abogado_id : Nat) (titulo tipo descripcion : String)
    (fecha : Nat) (presupuesto : Option Int) :
    ((sp_asignar_caso casos usuarios clientes abogados nuevo_id cliente_id
        abogado_id titulo tipo descripcion fecha presupuesto).2 = none →
      clienteActivo clientes usuarios cliente_id = true ∧
      abogadoActivo abogados usuarios abogado_id = true ∧
      (∀ p, presupuesto = some p → 0 ≤ p) ∧
      (sp_asignar_caso casos usuarios clientes abogados nuevo_id cliente_id
          abogado_id titulo tipo descripcion fecha presupuesto).1 =
        casos ++ [{ id_caso := nuevo_id, titulo := titulo, tipo := tipo,
                    descripcion := descripcion, estado := "pendiente",
                    id_cliente := cliente_id, id_abogado := abogado_id,
                    fecha_inicio := fecha, presupuesto := presupuesto }]) ∧
    (∀ p, presupuesto = some p → p < 0 →
      sp_asignar_caso casos usuarios clientes abogados nuevo_id cliente_id
          abogado_id titulo tipo descripcion fecha presupuesto =
        (casos, some .InvalidArgument)) ∧
    (cliente_id ∈ clientes_activos clientes usuarios ↔
      ∃ cl ∈ clientes,
        (∃ u ∈ usuarios, cl.id_usuario = u.id ∧ u.estado = "activo") ∧
        cl.id_cliente = cliente_id) := by
  refine ⟨?_, ?_, ?_⟩
  · intro hok
    by_cases hneg : presupuesto.any (fun p => decide (p < 0)) = true
    · rw [sp_asignar_caso, if_pos hneg] at hok
      cases hok
    · by_cases hact : (clienteActivo clientes usuarios cliente_id &&
          abogadoActivo abogados usuarios abogado_id) = true
      · obtain ⟨h1, h2⟩ := Bool.and_eq_true_iff.mp hact
        refine ⟨h1, h2, ?_, ?_⟩
        · intro p hp
          rw [hp] at hneg
          simp only [Option.any_some, decide_eq_true_eq] at hneg
          omega
        · rw [sp_asignar_caso, if_neg hneg, if_pos hact]
      · rw [sp_asignar_caso, if_neg hneg, if_neg hact] at hok
        cases hok
  · intro p hp hneg
    rw [sp_asignar_caso, if_pos]
    rw [hp]
    simp only [Option.any_some, decide_eq_true_eq]
    exact hneg
  · simp only [clientes_activos, List.mem_map, List.mem_filter,
      Bool.and_eq_true, beq_iff_eq, List.any_eq_true, and_assoc]

/-- Claim C5 witness: with the example tables (all users active), assigning a
case with budget 100 succeeds and creates it in `pendiente`; budget -5 is
rejected with `InvalidArgument` and writes nothing. -/
theorem c5_asignar_caso_witness :
    (clienteActivo clientesEj usuariosEj 10 = true ∧
     abogadoActivo abogadosEj usuariosEj 20 = true ∧
     (∀ p, (some (100 : Int)) = some p → 0 ≤ p) ∧
     (sp_asignar_caso [] usuariosEj clientesEj abogadosEj 200 10 20 "t" "tp"
        "d" 5 (some 100)).1 =
       [] ++ [{ id_caso := 200, titulo := "t", tipo := "tp", descripcion := "d",
                estado := "pendiente", id_cliente := 10, id_abogado := 20,
                fecha_inicio := 5, presupuesto := some 100 }]) ∧
    sp_asignar_caso [] usuariosEj clientesEj abogadosEj 201 10 20 "t" "tp"
        "d" 5 (some (-5)) = ([], some .InvalidArgument) := by
  constructor
  · exact (c5_asignar_caso [] usuariosEj clientesEj abogadosEj 200 10 20 "t"
      "tp" "d" 5 (some 100)).1 (by decide)
  · exact (c5_asignar_caso [] usuariosEj clientesEj abogadosEj 201 10 20 "t"
      "tp" "d" 5 (some (-5))).2.1 (-5) rfl (by decide)

/-- Claim C6 (counterexample): in the example tables, client user 1 may pick
recipient user 3 (lawyer of case 101) and attach case 100 — a case whose
lawyer is user 2, so it does not link the recipient — and the send succeeds,
inserting the message row instead of rejecting with `InvalidArgument`. -/
theorem c6_envio_caso_ajeno :
    (3, "L2") ∈ destinatarios_cliente usuariosEj abogadosEj casosEj clientesEj 1 ∧
    100 ∈ (casos_del_remitente casosEj abogadosEj clientesEj 1).map
      (fun c => c.id_caso) ∧
    (∀ c ∈ casosEj, c.id_caso = 100 →
      casoVinculaUsuario abogadosEj clientesEj c 3 = false) ∧
    enviar_mensaje [] 500 1 3 (some 100) "a" "b" 7 =
      [{ id_mensaje := 500, id_remitente := 1, id_destinatario := 3,
         id_caso := some 100, asunto := "a", mensaje := "b", leido := false,
         fecha_envio := 7 }] := by
  refine ⟨by decide, by decide, by decide, rfl⟩

/-- Claim C6 (amended): a supplied case reference is constrained only to the
sender's own cases — the dropdown offers exactly the cases whose lawyer or
client profile belongs to the sender — and the insert is unconditional: no
check that the case links the recipient is performed and no `InvalidArgument`
is signalled. -/
theorem c6_envio_solo_filtra_remitente (casos : List Caso)
    (abogados : List Abogado) (clientes : List Cliente) (user_id : Nat)
    (c : Caso) :
    (c ∈ casos_del_remitente casos abogados clientes user_id ↔
      c ∈ casos ∧
        ((∃ a ∈ abogados, a.id_usuario = user_id ∧ c.id_abogado = a.id_abogado) ∨
         (∃ cl ∈ clientes, cl.id_usuario = user_id ∧ c.id_cliente = cl.id_cliente))) ∧
    (∀ (mensajes : List Mensaje) (nuevo_id remitente destinatario : Nat)
        (caso : Option Nat) (asunto cuerpo : String) (fecha : Nat),
      enviar_mensaje mensajes nuevo_id remitente destinatario caso asunto
          cuerpo fecha =
        mensajes ++ [{ id_mensaje := nuevo_id, id_remitente := remitente,
                       id_destinatario := destinatario, id_caso := caso,
                       asunto := asunto, mensaje := cuerpo, leido := false,
                       fecha_envio := fecha }]) := by
  constructor
  · simp only [casos_del_remitente, List.mem_filter, Bool.or_eq_true,
      Bool.and_eq_true, beq_iff_eq, List.any_eq_true]
  · intro mensajes nuevo_id remitente destinatario caso asunto cuerpo fecha
    rfl

/-- Claim C7: under referential integrity of the sender column, the inbox of a
user contains exactly the messages whose recipient field equals that user, and
it is ordered by send timestamp descending. -/
theorem c7_bandeja_entrada (usuarios : List Usuario) (mensajes : List Mensaje)
    (user_id : Nat)
    (hfk : ∀ m ∈ mensajes, ∃ u ∈ usuarios, m.id_remitente = u.id) :
    (∀ m, m ∈ bandeja_entrada usuarios mensajes user_id ↔
      m ∈ mensajes ∧ m.id_destinatario = user_id) ∧
    List.Sorted msgDespues (bandeja_entrada usuarios mensajes user_id) := by
  constructor
  · intro m
    rw [bandeja_entrada, (List.perm_insertionSort msgDespues _).mem_iff]
    simp only [List.mem_filter, Bool.and_eq_true, beq_iff_eq, List.any_eq_true]
    constructor
    · rintro ⟨hm, hd, _⟩
      exact ⟨hm, hd⟩
    · rintro ⟨hm, hd⟩
      exact ⟨hm, hd, hfk m hm⟩
  · exact List.sorted_insertionSort msgDespues _

/-- Claim C7 witness: in the example tables, message 1 (to user 1) is in user
1's inbox, and the inbox is sorted by send time descending. -/
theorem c7_bandeja_entrada_witness :
    (mensajeEj1 ∈ bandeja_entrada usuariosEj mensajesEj 1 ↔
      mensajeEj1 ∈ mensajesEj ∧ mensajeEj1.id_destinatario = 1) ∧
    List.Sorted msgDespues (bandeja_entrada usuariosEj mensajesEj 1) :=
  ⟨(c7_bandeja_entrada usuariosEj mensajesEj 1 (by decide)).1 mensajeEj1,
   (c7_bandeja_entrada usuariosEj mensajesEj 1 (by decide)).2⟩

/-- Claim C8: the mark-as-read button is reachable only for a message of the
actor's own inbox, so the actor is the recipient of the clicked message; the
resulting UPDATE changes no column other than the read flag, leaves every row
with a different id untouched, and (message ids being unique) flips the flag
only on messages addressed to the actor. -/
theorem c8_marcar_leido_solo_destinatario (usuarios : List Usuario)
    (mensajes : List Mensaje) (actor : Nat) (m : Mensaje)
    (hids : (mensajes.map (fun x => x.id_mensaje)).Nodup)
    (hm : m ∈ bandeja_entrada usuarios mensajes actor) :
    m.id_destinatario = actor ∧
    (marcar_leido mensajes m.id_mensaje).map sinLeido = mensajes.map sinLeido ∧
    (∀ x ∈ mensajes, x.id_mensaje ≠ m.id_mensaje →
      x ∈ marcar_leido mensajes m.id_mensaje) ∧
    (∀ x ∈ mensajes, x.id_mensaje = m.id_mensaje → x.id_destinatario = actor) := by
  rw [bandeja_entrada, (List.perm_insertionSort msgDespues _).mem_iff] at hm
  simp only [List.mem_filter, Bool.and_eq_true, beq_iff_eq] at hm
  obtain ⟨hmem, hdest, _⟩ := hm
  refine ⟨hdest, ?_, ?_, ?_⟩
  · rw [marcar_leido, List.map_map]
    congr 1
    funext x
    show sinLeido (if x.id_mensaje == m.id_mensaje then { x with leido := true }
      else x) = sinLeido x
    by_cases hx : (x.id_mensaje == m.id_mensaje) = true
    · rw [if_pos hx]
      rfl
    · rw [if_neg hx]
  · intro x hx hne
    rw [marcar_leido]
    refine List.mem_map.mpr ⟨x, hx, ?_⟩
    rw [if_neg]
    simp [hne]
  · intro x hx heq
    have hxm : x = m :=
      List.inj_on_of_nodup_map hids hx hmem heq
    rw [hxm]
    exact hdest

/-- Claim C8 witness: message 1 is in user 1's inbox; marking it read changes
only the read flag and touches no other row. -/
theorem c8_marcar_leido_witness :
    mensajeEj1.id_destinatario = 1 ∧
    (marcar_leido mensajesEj mensajeEj1.id_mensaje).map sinLeido =
      mensajesEj.map sinLeido ∧
    (∀ x ∈ mensajesEj, x.id_mensaje ≠ mensajeEj1.id_mensaje →
      x ∈ marcar_leido mensajesEj mensajeEj1.id_mensaje) ∧
    (∀ x ∈ mensajesEj, x.id_mensaje = mensajeEj1.id_mensaje →
      x.id_destinatario = 1) :=
  c8_marcar_leido_solo_destinatario usuariosEj mensajesEj 1 mensajeEj1
    (by decide) (by decide)

theorem conflicto_iff (citas : List Cita) (abogado fecha hora : Nat) :
    conflicto citas abogado fecha hora = true ↔
      ∃ c ∈ citas, c.id_abogado = abogado ∧ c.fecha_cita = fecha ∧
        c.hora_cita = hora ∧ c.estado ≠ "cancelled" := by
  simp [conflicto, List.any_eq_true, Bool.and_eq_true, beq_iff_eq, bne_iff_ne,
    and_assoc]

/-- Claim C3: when an existing non-cancelled appointment of the same lawyer
occupies the identical `(date, time)` slot, booking signals `SlotUnavailable`
and writes nothing; otherwise it inserts exactly one new appointment in the
`scheduled` state. -/
theorem c3_agendar_cita_conflicto (citas : List Cita) (nuevo_id abogado cliente : Nat)
    (caso : Option Nat) (fecha hora : Nat) (motivo : String) :
    ((∃ c ∈ citas, c.id_abogado = abogado ∧ c.fecha_cita = fecha ∧
        c.hora_cita = hora ∧ c.estado ≠ "cancelled") →
      sp_agendar_cita citas nuevo_id abogado cliente caso fecha hora motivo =
        (citas, some .SlotUnavailable)) ∧
    ((¬ ∃ c ∈ citas, c.id_abogado = abogado ∧ c.fecha_cita = fecha ∧
        c.hora_cita = hora ∧ c.estado ≠ "cancelled") →
      sp_agendar_cita citas nuevo_id abogado cliente caso fecha hora motivo =
        (citas ++ [{ id_cita := nuevo_id, id_abogado := abogado,
                     id_cliente := cliente, id_caso := caso, fecha_cita := fecha,
                     hora_cita := hora, motivo := motivo, notas := none,
                     estado := "scheduled" }], none)) := by
  constructor
  · intro hex
    rw [sp_agendar_cita, if_pos ((conflicto_iff citas abogado fecha hora).mpr hex)]
  · intro hno
    rw [sp_agendar_cita, if_neg]
    intro hc
    exact hno ((conflicto_iff citas abogado fecha hora).mp hc)

/-- Claim C3 witness: with one scheduled appointment of lawyer 10 at slot
(fecha 5, hora 10), booking the same slot again fails with `SlotUnavailable`
leaving the table unchanged, and booking hora 11 succeeds. -/
theorem c3_agendar_cita_conflicto_witness :
    sp_agendar_cita
        [{ id_cita := 1, id_abogado := 10, id_cliente := 20, id_caso := none,
           fecha_cita := 5, hora_cita := 10, motivo := "consulta", notas := none,
           estado := "scheduled" }] 2 10 21 none 5 10 "otra" =
      ([{ id_cita := 1, id_abogado := 10, id_cliente := 20, id_caso := none,
          fecha_cita := 5, hora_cita := 10, motivo := "consulta", notas := none,
          estado := "scheduled" }], some .SlotUnavailable) ∧
    sp_agendar_cita
        [{ id_cita := 1, id_abogado := 10, id_cliente := 20, id_caso := none,
           fecha_cita := 5, hora_cita := 10, motivo := "consulta", notas := none,
           estado := "scheduled" }] 2 10 21 none 5 11 "otra" =
      ([{ id_cita := 1, id_abogado := 10, id_cliente := 20, id_caso := none,
          fecha_cita := 5, hora_cita := 10, motivo := "consulta", notas := none,
          estado := "scheduled" },
        { id_cita := 2, id_abogado := 10, id_cliente := 21, id_caso := none,
          fecha_cita := 5, hora_cita := 11, motivo := "otra", notas := none,
          estado := "scheduled" }], none) := by
  constructor
  · exact (c3_agendar_cita_conflicto _ 2 10 21 none 5 10 "otra").1 (by decide)
  · exact (c3_agendar_cita_conflicto _ 2 10 21 none 5 11 "otra").2 (by decide)

/-- Claim C9 (counterexample): a failed SELECT, a failed write, and a failed
stored-procedure call each return exactly the value of a successful call that
found no rows (`[]`, `0`, `[]`), so the caller cannot distinguish failure from
an empty success by the returned value. -/
theorem c9_error_indistinguible :
    (execute_query_select .excepcion).1 = (execute_query_select (.exito [])).1 ∧
    (execute_query_update .excepcion).1 = (execute_query_update (.exito 0)).1 ∧
    (execute_stored_procedure_model .excepcion).1 =
      (execute_stored_procedure_model (.exito [])).1 := by
  exact ⟨rfl, rfl, rfl⟩

/-- Claim C9 (amended): a failed query or stored-procedure call emits a UI
error banner (so it is not silent towards the user) but returns the same value
as a successful empty call; only a missing connection is distinguishable by
value (Python `None`). -/
theorem c9_error_solo_banner :
    execute_query_select .excepcion = (some [], true) ∧
    execute_query_select (.exito []) = (some [], false) ∧
    execute_query_update .excepcion = (some 0, true) ∧
    execute_query_update (.exito 0) = (some 0, false) ∧
    execute_stored_procedure_model .excepcion = (some [], true) ∧
    execute_stored_procedure_model (.exito []) = (some [], false) ∧
    (execute_query_select .sinConexion).1 = none := by
  exact ⟨rfl, rfl, rfl, rfl, rfl, rfl, rfl⟩

/-- Claim C10: invoking the document view with `cliente_view = true` as an
actor of role `cliente` never renders the upload form, so no upload event can
change the documents table through the client document view. -/
theorem c10_cliente_no_sube (docs : List Documento)
    (ev : Option (SubidaDoc × Nat × Nat)) :
    formulario_subida_visible true "cliente" = false ∧
    vista_documentos_subida true "cliente" docs ev = docs := by
  refine ⟨rfl, ?_⟩
  cases ev with
  | none => rfl
  | some e => simp [vista_documentos_subida, formulario_subida_visible]

end Bufete
